import Mathlib

/-
  Verification development for the trendible-backend keyword-intelligence engine.

  The TypeScript sources under src/ are embedded shallowly:
  * JS numbers are modelled as exact rationals (ℚ); integer counters as ℕ/ℤ.
  * Possibly-undefined JS fields are modelled as Option; JS truthiness of strings /
    numbers is modelled explicitly where the source relies on it (`x || d`).
  * async functions become pure functions parametrised by the outcome of each awaited
    upstream call (Except String carries a thrown error message).
-/

namespace Trendible

/-- JS Math.round: rounds half toward positive infinity. -/
def jsRound (x : ℚ) : ℤ := ⌊x + 1/2⌋

/-- JS truthiness of a possibly-undefined string: undefined and the empty string are falsy. -/
def jsTruthyStr : Option String → Bool
  | none => false
  | some s => s != ""

/-- JS `o || d` for a possibly-undefined string operand. -/
def jsStrOrD (o : Option String) (d : String) : String :=
  match o with
  | some s => if s = "" then d else s
  | none => d

/-- JS `a || b` for a possibly-undefined integer operand (0 is falsy). -/
def jsNumOr (a : Option ℤ) (b : ℤ) : ℤ :=
  match a with
  | none => b
  | some v => if v = 0 then b else v

/-- JS `o || null` for a possibly-undefined integer (0 becomes null). -/
def jsIntOrNull (o : Option ℤ) : Option ℤ :=
  match o with
  | none => none
  | some v => if v = 0 then none else some v

def dedupFirstAux : List String → List String → List String
  | _, [] => []
  | seen, x :: xs =>
      if x ∈ seen then dedupFirstAux seen xs else x :: dedupFirstAux (x :: seen) xs

/-- JS `[...new Set(l)]`: keeps the first occurrence of each element, in encounter order. -/
def dedupFirst (l : List String) : List String := dedupFirstAux [] l

def seqStartsWith : List Char → List Char → Bool
  | [], _ => true
  | _ :: _, [] => false
  | a :: as, b :: bs => a == b && seqStartsWith as bs

def hasSubSeq (sub : List Char) : List Char → Bool
  | [] => sub.isEmpty
  | c :: cs => seqStartsWith sub (c :: cs) || hasSubSeq sub cs

/-- JS `s.includes(sub)` on strings. -/
def jsIncludes (s sub : String) : Bool := hasSubSeq sub.toList s.toList

/-- JS `Array.prototype.indexOf` for rationals; returns the list length when the element is
absent (the source then indexes out of range, which yields undefined just like index -1). -/
def idxOfQ (a : ℚ) : List ℚ → ℕ
  | [] => 0
  | x :: xs => if x = a then 0 else idxOfQ a xs + 1

/-- JS `Math.max(...l)` for the nonempty lists this code applies it to. -/
def listMaxQ (l : List ℚ) : ℚ := l.foldl max (l.headD 0)

/-- JS `Math.min(...l)` for the nonempty lists this code applies it to. -/
def listMinQ (l : List ℚ) : ℚ := l.foldl min (l.headD 0)

/-- One entry of `monthly_searches` in a DataForSEO keyword payload. -/
structure MonthPoint where
  year : Option ℤ := none
  month : Option ℤ := none
  search_volume : Option ℚ := none
deriving DecidableEq

/-- researchService.calculateTrend: 3-month average versus the preceding 3 months. -/
def calculateTrend (monthlySearches : List MonthPoint) : String :=
  if monthlySearches.length < 2 then "no data"
  else
    -- recent = slice(-3), older = slice(-6, -3); ℕ-truncated subtraction matches the
    -- clamping JS applies to negative slice bounds
    let recent := monthlySearches.drop (monthlySearches.length - 3)
    let older := (monthlySearches.take (monthlySearches.length - 3)).drop
      (monthlySearches.length - 6)
    if recent.length = 0 ∨ older.length = 0 then "no data"
    else
      let recentAvg := (recent.map (fun item => item.search_volume.getD 0)).sum /
        (recent.length : ℚ)
      let olderAvg := (older.map (fun item => item.search_volume.getD 0)).sum /
        (older.length : ℚ)
      if olderAvg = 0 then "no data"
      else
        let change := ((recentAvg - olderAvg) / olderAvg) * 100
        if change > 10 then "+" ++ toString (jsRound change) ++ "%"
        else if change < -10 then toString (jsRound change) ++ "%"
        else "stable"

/-- Output record of researchService.calculateAdvancedTrend. Fields absent from the
short-circuit return (fewer than 3 points) are modelled as `none`. -/
structure AdvancedTrend where
  monthly_trend : String
  quarterly_trend : String
  yearly_trend : String
  year_over_year_growth : Option ℚ := none
  seasonality : String
  volatility : String
  peak_month : Option ℤ := none
  low_month : Option ℤ := none
  historical_months : Option ℕ := none
  avg_monthly_volume : Option ℤ := none
deriving DecidableEq

/-- researchService.calculateAdvancedTrend. The volatility comparison
`Math.sqrt(variance) / mean > c` is expressed as `variance > c^2 * mean^2`, which is
equivalent for `mean > 0` and keeps the definition inside ℚ. -/
def calculateAdvancedTrend (monthlySearches : List MonthPoint) : AdvancedTrend :=
  if monthlySearches.length < 3 then
    { monthly_trend := "insufficient_data"
      quarterly_trend := "insufficient_data"
      yearly_trend := "insufficient_data"
      seasonality := "unknown"
      volatility := "unknown" }
  else
    let volumes := monthlySearches.map (fun m => m.search_volume.getD 0)
    let totalMonths := volumes.length
    let monthlyTrend := calculateTrend monthlySearches
    let quarterlyTrend :=
      if totalMonths ≥ 6 then
        let lastQuarter := volumes.drop (volumes.length - 3)
        let prevQuarter := (volumes.take (volumes.length - 3)).drop (volumes.length - 6)
        let lastQuarterAvg := lastQuarter.sum / 3
        let prevQuarterAvg := prevQuarter.sum / 3
        if prevQuarterAvg > 0 then
          let quarterlyChange := ((lastQuarterAvg - prevQuarterAvg) / prevQuarterAvg) * 100
          if quarterlyChange > 15 then "+" ++ toString (jsRound quarterlyChange) ++ "%"
          else if quarterlyChange < -15 then toString (jsRound quarterlyChange) ++ "%"
          else "stable"
        else "insufficient_data"
      else "insufficient_data"
    let yearlyPair : String × Option ℚ :=
      if totalMonths ≥ 24 then
        let currentYear := volumes.drop (volumes.length - 12)
        let previousYear := (volumes.take (volumes.length - 12)).drop (volumes.length - 24)
        let currentYearTotal := currentYear.sum
        let previousYearTotal := previousYear.sum
        if previousYearTotal > 0 then
          let growth := ((currentYearTotal - previousYearTotal) / previousYearTotal) * 100
          (if growth > 20 then "+" ++ toString (jsRound growth) ++ "%"
           else if growth < -20 then toString (jsRound growth) ++ "%"
           else "stable", some growth)
        else ("insufficient_data", none)
      else if totalMonths ≥ 12 then
        let firstHalf := volumes.take 6
        let lastHalf := volumes.drop (volumes.length - 6)
        let firstHalfAvg := firstHalf.sum / (firstHalf.length : ℚ)
        let lastHalfAvg := lastHalf.sum / (lastHalf.length : ℚ)
        if firstHalfAvg > 0 then
          let halfYearChange := ((lastHalfAvg - firstHalfAvg) / firstHalfAvg) * 100
          (if halfYearChange > 25 then "+" ++ toString (jsRound halfYearChange) ++ "%"
           else if halfYearChange < -25 then toString (jsRound halfYearChange) ++ "%"
           else "stable", none)
        else ("insufficient_data", none)
      else ("insufficient_data", none)
    let maxVolume := listMaxQ volumes
    let minVolume := listMinQ volumes
    let seasonality :=
      if maxVolume > 0 then
        let variationPercent := ((maxVolume - minVolume) / maxVolume) * 100
        if variationPercent > 60 then "very_high"
        else if variationPercent > 40 then "high"
        else if variationPercent > 25 then "medium"
        else "low"
      else "low"
    let mean := volumes.sum / (volumes.length : ℚ)
    let variance := (volumes.map (fun vol => (vol - mean) ^ 2)).sum / (volumes.length : ℚ)
    let volatilityLevel :=
      if mean > 0 then
        if variance > (2/5 : ℚ) ^ 2 * mean ^ 2 then "very_high"
        else if variance > (3/10 : ℚ) ^ 2 * mean ^ 2 then "high"
        else if variance > (3/20 : ℚ) ^ 2 * mean ^ 2 then "medium"
        else "low"
      else "low"
    { monthly_trend := monthlyTrend
      quarterly_trend := quarterlyTrend
      yearly_trend := yearlyPair.1
      year_over_year_growth := yearlyPair.2
      seasonality := seasonality
      volatility := volatilityLevel
      peak_month := jsIntOrNull ((monthlySearches.get? (idxOfQ maxVolume volumes)).bind
        (fun m => m.month))
      low_month := jsIntOrNull ((monthlySearches.get? (idxOfQ minVolume volumes)).bind
        (fun m => m.month))
      historical_months := some totalMonths
      avg_monthly_volume := some (jsRound mean) }

/-- Competition tier from a 0..1 competition score, exactly as computed inline in
researchService.getGoogleKeywordData and researchService.generateKeywordSummary
(high if score > 0.7, medium if score > 0.4, low otherwise). -/
def competitionLevel (competition : ℚ) : String :=
  if competition > 7/10 then "high"
  else if competition > 4/10 then "medium"
  else "low"

/-- dataForSEOErrorHandlers.DataForSEOError: the classified error object. `cost` keeps its
possibly-undefined nature (the constructor stores `details.cost` unchanged). -/
structure DataForSEOError where
  statusCode : ℤ
  message : String
  endpoint : Option String := none
  retryable : Bool := false
  cost : Option ℚ := none
deriving DecidableEq

/-- The parts of a raw axios-style error that handleApiError reads:
`error.response.status`, `.statusText`, `.data?.status_message`, `.data?.cost`. -/
structure JsHttpResponse where
  status : ℤ
  statusText : Option String := none
  data_status_message : Option String := none
  data_cost : Option ℚ := none
deriving DecidableEq

/-- A thrown JS error as seen by handleApiError: an already-classified DataForSEOError,
an HTTP error carrying a response, a transport error carrying a code, or anything else. -/
inductive JsError where
  | dfs (e : DataForSEOError)
  | response (r : JsHttpResponse)
  | transport (c : String)
  | plain
deriving DecidableEq

/-- dataForSEOErrorHandlers.handleApiError. -/
def handleApiError (error : JsError) (endpoint : Option String) : DataForSEOError :=
  match error with
  | .dfs e => e
  | .response r =>
      let statusCode := r.status
      let message0 := jsStrOrD r.statusText
        (jsStrOrD r.data_status_message "Unknown DataForSEO API error")
      let cost := r.data_cost.getD 0
      let classified : String × Bool :=
        if statusCode = 401 then ("Invalid DataForSEO API credentials", false)
        else if statusCode = 402 then ("Insufficient DataForSEO API credits", false)
        else if statusCode = 429 then ("DataForSEO API rate limit exceeded", true)
        else if statusCode = 500 ∨ statusCode = 502 ∨ statusCode = 503 ∨ statusCode = 504 then
          ("DataForSEO API server error", true)
        else (message0, false)
      { statusCode := statusCode, message := classified.1, endpoint := endpoint,
        retryable := classified.2, cost := some cost }
  | .transport c =>
      let classified : String × Bool :=
        if c = "ECONNREFUSED" ∨ c = "ENOTFOUND" ∨ c = "ETIMEDOUT" then
          ("DataForSEO API connection failed", true)
        else if c = "ECONNABORTED" then ("DataForSEO API request timeout", true)
        else ("Unknown DataForSEO API error", false)
      { statusCode := 500, message := classified.1, endpoint := endpoint,
        retryable := classified.2, cost := some 0 }
  | .plain =>
      { statusCode := 500, message := "Unknown DataForSEO API error", endpoint := endpoint,
        retryable := false, cost := some 0 }

/-- dataForSEOConfig.retry. -/
structure RetryConfig where
  MAX_RETRIES : ℕ
  BASE_DELAY : ℕ
  MAX_DELAY : ℕ
  BACKOFF_MULTIPLIER : ℕ

def dataForSEOConfigRetry : RetryConfig :=
  { MAX_RETRIES := 3, BASE_DELAY := 1000, MAX_DELAY := 10000, BACKOFF_MULTIPLIER := 2 }

/-- Observable trace of one run of dataForSEOErrorHandlers.withRetry:
the returned/thrown outcome, the number of times `operation` was invoked, the sleeps
performed (ms, in order), and the value of the local `totalCost` accumulator at exit. -/
structure RetryTrace (T : Type) where
  result : Except DataForSEOError T
  attempts : ℕ
  delays : List ℕ
  totalCostAccum : ℚ

/-- The retry loop of dataForSEOErrorHandlers.withRetry. `op n` is the outcome of the
(n+1)-th invocation of `operation`. `fuel` bounds the loop; `withRetry` supplies
`maxRetries + 1`, which is exact, so the fuel-0 branch (the `throw lastError!` line after
the loop in the source) is unreachable. -/
def withRetryGo {T : Type} (op : ℕ → Except JsError T) (endpoint : Option String)
    (maxRetries baseDelay : ℕ) :
    ℕ → ℚ → List ℕ → Option DataForSEOError → ℕ → RetryTrace T
  | attempt, totalCost, delays, lastError, 0 =>
      { result := .error (lastError.getD
          { statusCode := 500, message := "Unknown DataForSEO API error" })
        attempts := attempt, delays := delays, totalCostAccum := totalCost }
  | attempt, totalCost, delays, _lastError, fuel + 1 =>
      match op attempt with
      | .ok v =>
          { result := .ok v, attempts := attempt + 1, delays := delays,
            totalCostAccum := totalCost }
      | .error e =>
          let err := handleApiError e endpoint
          let totalCost2 := totalCost + err.cost.getD 0
          if err.retryable = false ∨ attempt = maxRetries then
            { result := .error err, attempts := attempt + 1, delays := delays,
              totalCostAccum := totalCost2 }
          else
            withRetryGo op endpoint maxRetries baseDelay (attempt + 1) totalCost2
              (delays ++ [baseDelay * 2 ^ attempt]) (some err) fuel

/-- dataForSEOErrorHandlers.withRetry. The parameter defaults in the source are the
config values MAX_RETRIES = 3 and BASE_DELAY = 1000. -/
def withRetry {T : Type} (op : ℕ → Except JsError T) (endpoint : Option String)
    (maxRetries baseDelay : ℕ) : RetryTrace T :=
  withRetryGo op endpoint maxRetries baseDelay 0 0 [] none (maxRetries + 1)

/-- dataForSEOResponseHandler.DataForSEOTask, parametrised by the item type `α` of its
result list. -/
structure DFSTask (α : Type) where
  id : Option String := none
  status_code : Option ℤ := none
  status_message : Option String := none
  cost : Option ℚ := none
  result_count : Option ℕ := none
  result : Option (List α) := none
deriving DecidableEq

/-- dataForSEOResponseHandler.DataForSEOResponse. -/
structure DFSResponse (α : Type) where
  status_code : Option ℤ := none
  status_message : Option String := none
  time : Option String := none
  cost : Option ℚ := none
  tasks : Option (List (DFSTask α)) := none
deriving DecidableEq

/-- JS template-literal rendering of a possibly-undefined string. -/
def renderOptStr : Option String → String
  | none => "undefined"
  | some s => s

/-- JS template-literal rendering of a possibly-undefined integer. -/
def renderOptInt : Option ℤ → String
  | none => "undefined"
  | some i => toString i

/-- DataForSEOResponseHandler.extractFirstTaskResults. A `none` response models a null
envelope; a thrown Error is modelled as `Except.error` of its message. -/
def extractFirstTaskResults {α : Type} (response : Option (DFSResponse α)) :
    Except String (List α) :=
  match response with
  | none => .error "Invalid DataForSEO response: no tasks found"
  | some r =>
      match r.tasks with
      | none => .error "Invalid DataForSEO response: no tasks found"
      | some [] => .error "Invalid DataForSEO response: no tasks found"
      | some (firstTask :: _) =>
          if firstTask.status_code ≠ some 20000 then
            .error ("DataForSEO task failed: " ++ renderOptStr firstTask.status_message ++
              " (code: " ++ renderOptInt firstTask.status_code ++ ")")
          else .ok (firstTask.result.getD [])

/-- DataForSEOResponseHandler.extractFirstResultItem. -/
def extractFirstResultItem {α : Type} (response : Option (DFSResponse α)) :
    Except String α :=
  match extractFirstTaskResults response with
  | .error e => .error e
  | .ok [] => .error "No results found in DataForSEO response"
  | .ok (x :: _) => .ok x

/-- DataForSEOResponseHandler.getTotalCost. -/
def getTotalCost {α : Type} (response : Option (DFSResponse α)) : ℚ :=
  match response.bind (fun r => r.tasks) with
  | none => (response.bind (fun r => r.cost)).getD 0
  | some tasks => tasks.foldl (fun total task => total + task.cost.getD 0) 0

structure ValidationResult where
  isValid : Bool
  errors : List String
  warnings : List String
deriving DecidableEq

/-- DataForSEOResponseHandler.validateResponse. -/
def validateResponse {α : Type} (response : Option (DFSResponse α)) : ValidationResult :=
  match response with
  | none => { isValid := false, errors := ["Response is null or undefined"], warnings := [] }
  | some r =>
      let errors0 : List String :=
        if r.status_code ≠ some 20000 then
          ["API request failed: " ++ renderOptStr r.status_message ++ " (code: " ++
            renderOptInt r.status_code ++ ")"]
        else []
      match r.tasks with
      | none =>
          { isValid := false, errors := errors0 ++ ["Missing or invalid tasks array"],
            warnings := [] }
      | some tasks =>
          let warnings0 := if tasks.length = 0 then ["No tasks found in response"] else []
          let taskWarnings := (tasks.enum.map (fun p =>
            (if p.2.status_code ≠ some 20000 then
              ["Task " ++ toString (p.1 + 1) ++ " failed: " ++
                renderOptStr p.2.status_message ++ " (code: " ++
                renderOptInt p.2.status_code ++ ")"]
             else []) ++
            (if p.2.result.isNone then
              ["Task " ++ toString (p.1 + 1) ++ " has no results"]
             else []))).flatten
          { isValid := errors0.length == 0, errors := errors0,
            warnings := warnings0 ++ taskWarnings }

structure ResponseSummary where
  totalCost : ℚ
  totalTasks : ℕ
  successfulTasks : ℕ
  failedTasks : ℕ
  totalResults : ℕ
  responseTime : Option String
  warnings : List String
deriving DecidableEq

/-- DataForSEOResponseHandler.getResponseSummary. -/
def getResponseSummary {α : Type} (response : Option (DFSResponse α)) : ResponseSummary :=
  let validation := validateResponse response
  let tasks := (response.bind (fun r => r.tasks)).getD []
  let successfulTasks := tasks.filter (fun task => task.status_code == some 20000)
  let totalResults := successfulTasks.foldl
    (fun total task => total + ((task.result.map List.length).getD 0)) 0
  { totalCost := getTotalCost response
    totalTasks := tasks.length
    successfulTasks := successfulTasks.length
    failedTasks := tasks.length - successfulTasks.length
    totalResults := totalResults
    responseTime := response.bind (fun r => r.time)
    warnings := validation.warnings }

/-- The rating object attached to an ad item (`ad.rating.value`). -/
structure Rating where
  value : Option ℚ := none
deriving DecidableEq

/-- One SERP item as the analysis functions read it. `rectangle_items` models
`item.rectangle?.items` (some list iff both `rectangle` and `rectangle.items` are present,
the only combination the source distinguishes). -/
structure SerpItem where
  type : Option String := none
  title : Option String := none
  description : Option String := none
  url : Option String := none
  domain : Option String := none
  website_name : Option String := none
  ad_aclk : Option String := none
  rating : Option Rating := none
  price_range : Option String := none
  price : Option String := none
  rectangle_items : Option (List Unit) := none
  images : Option (List Unit) := none
  rank_absolute : Option ℤ := none
  rank_group : Option ℤ := none
  views_count : Option ℚ := none
deriving DecidableEq

/-- One entry of a SERP task's result list: the entry object with its nested `items`.
When `items` is absent the JS extractor returns the raw entries themselves and the
downstream analysis reads the same fields off them, so the entry carries a SerpItem. -/
structure SerpResultEntry where
  item : SerpItem := {}
  items : Option (List SerpItem) := none
deriving DecidableEq

/-- DataForSEOExtractors.serpResults: first task's results; if the first result entry has
an `items` array (truthy even when empty) return it, otherwise return the raw entries. -/
def extractSerpResults (response : Option (DFSResponse SerpResultEntry)) :
    Except String (List SerpItem) :=
  match extractFirstTaskResults response with
  | .error e => .error e
  | .ok [] => .ok []
  | .ok (r :: rest) =>
      match r.items with
      | some items => .ok items
      | none => .ok ((r :: rest).map (fun entry => entry.item))

/-- The feature tags one SERP item contributes in researchService.analyzeSerpFeatures
(each `if (result.type === ...) features.push(...)` line). -/
def itemFeatureTags (result : SerpItem) : List String :=
  (if result.type = some "people_also_ask" then ["people_also_ask"] else []) ++
  (if result.type = some "knowledge_graph" then ["knowledge_graph"] else []) ++
  (if result.type = some "featured_snippet" then ["featured_snippet"] else []) ++
  (if result.type = some "local_pack" then ["local_pack"] else []) ++
  (if result.type = some "shopping" then ["shopping"] else []) ++
  (if result.type = some "images" then ["images"] else []) ++
  (if result.type = some "videos" then ["videos"] else []) ++
  (if result.type = some "top_stories" then ["news"] else []) ++
  (if result.type = some "related_searches" then ["related_searches"] else []) ++
  (if result.type = some "ai_overview" then ["ai_overview"] else []) ++
  (if result.type = some "answer_box" then ["answer_box"] else []) ++
  (if result.type = some "jobs" then ["jobs"] else []) ++
  (if result.type = some "local_services" then ["local_services"] else []) ++
  (if result.type = some "reviews" then ["reviews"] else [])

/-- researchService.analyzeSerpFeatures: collect tags over all items, then
`[...new Set(features)]`. -/
def analyzeSerpFeatures (serpResults : List SerpItem) : List String :=
  dedupFirst ((serpResults.map itemFeatureTags).flatten)

/-- Content-opportunity strings per feature (the switch in analyzeSerpStrategy). -/
def featureContentOpportunities (feature : String) : List String :=
  match feature with
  | "people_also_ask" =>
      ["Create comprehensive FAQ content", "Target question-based keywords"]
  | "featured_snippet" =>
      ["Optimize for featured snippets with structured content",
       "Use clear headings and concise answers"]
  | "images" =>
      ["Include high-quality visual content", "Optimize image alt text and file names"]
  | "videos" => ["Create video content strategy", "Optimize for YouTube SEO"]
  | "news" =>
      ["Focus on timely, newsworthy content", "Establish content publishing frequency"]
  | "local_pack" => ["Optimize for local SEO", "Focus on location-based keywords"]
  | "shopping" => ["Include product-focused content", "Add e-commerce optimization"]
  | "knowledge_graph" =>
      ["Build entity authority and brand recognition", "Focus on structured data markup"]
  | "related_searches" =>
      ["Research semantic and related keywords", "Create topic clusters around main keyword"]
  | "ai_overview" =>
      ["Create authoritative, comprehensive content",
       "Focus on E-A-T (Expertise, Authority, Trust)"]
  | _ => []

/-- CTR-impact delta per feature (the second switch in analyzeSerpStrategy; the default
branch subtracts 2). -/
def featureCtrDelta (feature : String) : ℤ :=
  match feature with
  | "featured_snippet" => -8
  | "people_also_ask" => -5
  | "images" => -4
  | "videos" => -6
  | "shopping" => -7
  | "local_pack" => -10
  | "knowledge_graph" => -3
  | "news" => -5
  | "ai_overview" => -12
  | _ => -2

structure SerpAnalysis where
  feature_count : ℕ
  organic_competition : String
  estimated_ctr_impact : ℤ
  content_opportunities : List String
  competition_indicators : List String
  strategic_priority : String
deriving DecidableEq

/-- researchService.analyzeSerpStrategy. -/
def analyzeSerpStrategy (serpFeatures : List String) : SerpAnalysis :=
  let featureCount := serpFeatures.length
  let contentOpportunities := (serpFeatures.map featureContentOpportunities).flatten
  let competitionIndicators :=
    if featureCount ≥ 5 then
      ["Very high SERP competition", "Multiple features competing for clicks"]
    else if featureCount ≥ 3 then ["Moderate SERP competition", "Several features present"]
    else if featureCount ≥ 1 then ["Some SERP competition", "Limited features competing"]
    else ["Clean organic SERP", "Traditional search results"]
  let ctrImpact := serpFeatures.foldl (fun acc feature => acc + featureCtrDelta feature) 0
  let organicDifficulty :=
    if featureCount ≥ 4 then "very_high"
    else if featureCount ≥ 3 then "high"
    else if featureCount ≥ 2 then "medium"
    else "low"
  { feature_count := featureCount
    organic_competition := organicDifficulty
    estimated_ctr_impact := max ctrImpact (-50)
    content_opportunities := dedupFirst contentOpportunities
    competition_indicators := dedupFirst competitionIndicators
    strategic_priority :=
      if featureCount ≥ 3 then "high_competition_strategy" else "standard_seo_approach" }

/-- researchService.determineSearchIntent. -/
def determineSearchIntent (serpResults : List SerpItem) (keyword : String) : String :=
  let keywordLower := keyword.toLower
  if jsIncludes keywordLower "buy" || jsIncludes keywordLower "purchase" ||
      jsIncludes keywordLower "price" || jsIncludes keywordLower "cost" then "commercial"
  else if jsIncludes keywordLower "download" || jsIncludes keywordLower "signup" ||
      jsIncludes keywordLower "subscribe" || jsIncludes keywordLower "free trial" then
    "transactional"
  else if jsIncludes keywordLower "login" || jsIncludes keywordLower "website" ||
      jsIncludes keywordLower "official site" then "navigational"
  else if serpResults.any (fun r => r.type == some "shopping") then "commercial"
  else if serpResults.any (fun r => r.type == some "local_pack") then "local"
  else "informational"

/-- Title block of researchService.calculateAdQuality: +1 for a 30..60-char title,
+0.5 for a brand separator. -/
def adTitleBonus (ad : SerpItem) : ℚ :=
  match ad.title with
  | some title =>
      if title ≠ "" then
        (if 30 ≤ title.length ∧ title.length ≤ 60 then 1 else 0) +
        (if title.contains '|' ∨ title.contains '-' then 1/2 else 0)
      else 0
  | none => 0

/-- Description block of calculateAdQuality: +1 for a description of length ≥ 80. -/
def adDescriptionBonus (ad : SerpItem) : ℚ :=
  match ad.description with
  | some d => if d ≠ "" ∧ 80 ≤ d.length then 1 else 0
  | none => 0

/-- +0.5 when the ad has a tracking link (`ad.ad_aclk`). -/
def adAclkBonus (ad : SerpItem) : ℚ := if jsTruthyStr ad.ad_aclk then 1/2 else 0

/-- +1.5 when `ad.rating && ad.rating.value >= 4.0`. -/
def adRatingBonus (ad : SerpItem) : ℚ :=
  match ad.rating with
  | some r =>
      match r.value with
      | some v => if 4 ≤ v then 3/2 else 0
      | none => 0
  | none => 0

/-- +0.5 when the ad shows pricing (`ad.price_range`). -/
def adPriceBonus (ad : SerpItem) : ℚ := if jsTruthyStr ad.price_range then 1/2 else 0

/-- +1 when `ad.rectangle && ad.rectangle.items && ad.rectangle.items.length > 0`. -/
def adRectangleBonus (ad : SerpItem) : ℚ :=
  match ad.rectangle_items with
  | some items => if 0 < items.length then 1 else 0
  | none => 0

/-- +0.5 when the ad carries a clear brand name (`ad.website_name`). -/
def adBrandBonus (ad : SerpItem) : ℚ := if jsTruthyStr ad.website_name then 1/2 else 0

/-- researchService.calculateAdQuality: base score 5.0 plus the additive bonuses above,
capped at 10 (`Math.min(qualityScore, 10.0)`). -/
def calculateAdQuality (ad : SerpItem) : ℚ :=
  min (5 + adTitleBonus ad + adDescriptionBonus ad + adAclkBonus ad + adRatingBonus ad +
    adPriceBonus ad + adRectangleBonus ad + adBrandBonus ad) 10

/-- `[...new Set(paidResults.map(ad => ad.domain).filter(Boolean))]`; also the insertion
order of the advertiser map in getTopAdvertisers (first occurrence of each truthy domain). -/
def advertiserDomainsOf (paidResults : List SerpItem) : List String :=
  dedupFirst (paidResults.filterMap (fun ad =>
    match ad.domain with
    | some d => if d ≠ "" then some d else none
    | none => none))

def adsOfDomain (paidResults : List SerpItem) (d : String) : List SerpItem :=
  paidResults.filter (fun ad => ad.domain == some d)

/-- `ad.rank_absolute || ad.rank_group || 0`. -/
def jsPosition (ad : SerpItem) : ℤ := jsNumOr ad.rank_absolute (jsNumOr ad.rank_group 0)

structure TopAdvertiser where
  domain : String
  ads_count : ℕ
  positions : List ℤ
  sample_title : String
  website_name : String
deriving DecidableEq

def insertByCountDesc (x : TopAdvertiser) : List TopAdvertiser → List TopAdvertiser
  | [] => [x]
  | y :: ys => if y.ads_count < x.ads_count then x :: y :: ys else y :: insertByCountDesc x ys

/-- JS `sort((a, b) => b.ads_count - a.ads_count)`: stable descending sort. -/
def sortByCountDesc (l : List TopAdvertiser) : List TopAdvertiser :=
  l.foldl (fun acc x => insertByCountDesc x acc) []

/-- researchService.getTopAdvertisers. -/
def getTopAdvertisers (paidResults : List SerpItem) : List TopAdvertiser :=
  let entries := (advertiserDomainsOf paidResults).map (fun d =>
    let ads := adsOfDomain paidResults d
    { domain := d
      ads_count := ads.length
      positions := ads.map jsPosition
      sample_title := ((ads.headD {}).title).getD ""
      website_name := ((ads.headD {}).website_name).getD "" })
  (sortByCountDesc entries).take 5

structure AdFeatures where
  has_ratings : ℕ
  has_pricing : ℕ
  has_extensions : ℕ
  has_images : ℕ
  avg_title_length : ℤ
  avg_description_length : ℤ
  ratings_percentage : ℤ
  pricing_percentage : ℤ
  extensions_percentage : ℤ
  images_percentage : ℤ
deriving DecidableEq

/-- researchService.analyzeAdFeatures. -/
def analyzeAdFeatures (paidResults : List SerpItem) : AdFeatures :=
  let hasRatings := (paidResults.filter (fun ad => ad.rating.isSome)).length
  let hasPricing := (paidResults.filter (fun ad =>
    jsTruthyStr ad.price_range || jsTruthyStr ad.price)).length
  let hasExtensions := (paidResults.filter (fun ad => ad.rectangle_items.isSome)).length
  let hasImages := (paidResults.filter (fun ad =>
    decide (0 < (ad.images.getD []).length))).length
  let titles := paidResults.filterMap (fun ad =>
    match ad.title with
    | some t => if t ≠ "" then some t else none
    | none => none)
  let descriptions := paidResults.filterMap (fun ad =>
    match ad.description with
    | some d => if d ≠ "" then some d else none
    | none => none)
  { has_ratings := hasRatings
    has_pricing := hasPricing
    has_extensions := hasExtensions
    has_images := hasImages
    avg_title_length :=
      if 0 < titles.length then
        jsRound (((titles.map String.length).sum : ℚ) / (titles.length : ℚ))
      else 0
    avg_description_length :=
      if 0 < descriptions.length then
        jsRound (((descriptions.map String.length).sum : ℚ) / (descriptions.length : ℚ))
      else 0
    ratings_percentage := jsRound (((hasRatings : ℚ) / (paidResults.length : ℚ)) * 100)
    pricing_percentage := jsRound (((hasPricing : ℚ) / (paidResults.length : ℚ)) * 100)
    extensions_percentage := jsRound (((hasExtensions : ℚ) / (paidResults.length : ℚ)) * 100)
    images_percentage := jsRound (((hasImages : ℚ) / (paidResults.length : ℚ)) * 100) }

/-- researchService.generatePaidCompetitionInsights. -/
def generatePaidCompetitionInsights (adsCount : ℕ) (domains : List String)
    (avgQuality : ℚ) (platform : String) : List String :=
  let countInsights :=
    if adsCount ≥ 8 then
      ["Extremely competitive paid landscape",
       "High CPC expected - consider long-tail targeting",
       "Quality Score optimization critical for success"]
    else if adsCount ≥ 5 then
      ["Highly competitive paid market", "Focus on ad quality and landing page optimization"]
    else if adsCount ≥ 3 then
      ["Moderate paid competition", "Good opportunity with proper targeting"]
    else if adsCount > 0 then
      ["Limited paid competition", "Opportunity for market entry with lower CPC"]
    else []
  let uniqueDomains := domains.length
  let domainInsights :=
    if uniqueDomains = adsCount then ["Diverse advertiser base - no single dominant player"]
    else if (uniqueDomains : ℚ) < (adsCount : ℚ) / 2 then
      ["Few advertisers running multiple ads - aggressive competition"]
    else []
  let qualityInsights :=
    if avgQuality ≥ 8 then
      ["High-quality ads with rich features - premium competition",
       "Invest in professional ad copy and extensions"]
    else if avgQuality ≥ 6 then ["Standard ad quality - opportunity for differentiation"]
    else if avgQuality < 5 then
      ["Room for improvement in ad quality - competitive advantage possible"]
    else []
  let platformInsights :=
    if platform = "bing" then
      ["Bing audience may have different intent - test messaging variations"] ++
      (if adsCount < 5 then ["Less competition on Bing - potential for better ROI"] else [])
    else if platform = "google" then ["Google Ads competition - focus on Quality Score factors"]
    else []
  countInsights ++ domainInsights ++ qualityInsights ++ platformInsights

structure AdPosition where
  position : ℤ
  domain : Option String
  title : Option String
  url : Option String
deriving DecidableEq

/-- The `paid_competition` record produced by researchService.analyzePaidCompetition.
Fields absent from the zero-ads branch are modelled as `none` / `[]`. -/
structure PaidCompetition where
  ads_count : ℕ
  competition_level : String
  advertiser_domains : List String
  ad_positions : List AdPosition := []
  average_ad_quality : Option ℚ := none
  top_advertisers : List TopAdvertiser := []
  ad_features : Option AdFeatures := none
  strategic_insights : List String
  platform : Option String := none
deriving DecidableEq

/-- researchService.analyzePaidCompetition (the `paid_competition` payload; the
processing-time field and the unreachable catch branch are not modelled since nothing in
the body can throw). -/
def analyzePaidCompetition (serpResults : List SerpItem) (platform : String) :
    PaidCompetition :=
  let paidResults := serpResults.filter (fun result => result.type == some "paid")
  if paidResults.length = 0 then
    { ads_count := 0
      competition_level := "none"
      advertiser_domains := []
      strategic_insights :=
        ["No paid competition detected", "Opportunity for paid advertising entry",
         "Lower cost-per-click expected"] }
  else
    let advertiserDomains := advertiserDomainsOf paidResults
    let adPositions := paidResults.map (fun ad =>
      { position := jsPosition ad, domain := ad.domain, title := ad.title,
        url := ad.url : AdPosition })
    let adQualityScores := paidResults.map calculateAdQuality
    let avgAdQuality :=
      if 0 < adQualityScores.length then adQualityScores.sum / (adQualityScores.length : ℚ)
      else 0
    let competitionLevelPaid :=
      if paidResults.length ≥ 8 then "very_high"
      else if paidResults.length ≥ 5 then "high"
      else if paidResults.length ≥ 3 then "medium"
      else "low"
    let strategicInsights := generatePaidCompetitionInsights paidResults.length
      advertiserDomains avgAdQuality platform
    { ads_count := paidResults.length
      competition_level := competitionLevelPaid
      advertiser_domains := advertiserDomains
      ad_positions := adPositions
      average_ad_quality := some ((jsRound (avgAdQuality * 10) : ℚ) / 10)
      top_advertisers := getTopAdvertisers paidResults
      ad_features := some (analyzeAdFeatures paidResults)
      strategic_insights := strategicInsights
      platform := some platform }

structure DifficultyItem where
  keyword : Option String := none
  keyword_difficulty : Option ℚ := none
deriving DecidableEq

structure DifficultyResultEntry where
  items : Option (List DifficultyItem) := none
deriving DecidableEq

/-- The `data` record returned by researchService.getKeywordDifficulty. -/
structure DifficultyData where
  keyword : String
  difficulty_score : Option ℚ
  complexity : String
  competition_level : String
  api_error : Option String := none
deriving DecidableEq

structure DifficultyOutcome where
  data : DifficultyData
  cost : ℚ
deriving DecidableEq

/-- researchService.getKeywordDifficulty. `apiCall` is the outcome of the fetch+json of
the bulk-keyword-difficulty endpoint; `.error` covers a network failure or a non-2xx
`!response.ok` throw. Every failure path is caught by the function's own catch block and
turned into a placeholder record — the function never throws. -/
def getKeywordDifficulty (keyword : String)
    (apiCall : Except String (DFSResponse DifficultyResultEntry)) : DifficultyOutcome :=
  match apiCall with
  | .error msg =>
      { data :=
          { keyword := keyword
            difficulty_score := none
            complexity := "unknown"
            competition_level := "unknown"
            api_error := some msg }
        cost := 0 }
  | .ok result =>
      if result.status_code ≠ some 20000 then
        -- the source throws here and its own catch turns the message into the placeholder
        { data :=
            { keyword := keyword
              difficulty_score := none
              complexity := "unknown"
              competition_level := "unknown"
              api_error := some ("Google keyword difficulty API error: " ++
                renderOptStr result.status_message) }
          cost := 0 }
      else
        -- result.tasks?.[0]?.result?.[0]?.items || [] and result.tasks?.[0]?.cost || 0
        let firstTask := result.tasks.bind List.head?
        let difficultyItems := ((firstTask.bind (fun t => t.result)).bind List.head?).bind
          (fun entry => entry.items) |>.getD []
        let cost := (firstTask.bind (fun t => t.cost)).getD 0
        match difficultyItems.find? (fun item => item.keyword == some keyword) with
        | none =>
            { data :=
                { keyword := keyword
                  difficulty_score := none
                  complexity := "unknown"
                  competition_level := "unknown" }
              cost := cost }
        | some keywordResult =>
            let difficultyScore := keywordResult.keyword_difficulty.getD 0
            let complexity :=
              if difficultyScore > 80 then "very_hard"
              else if difficultyScore > 60 then "hard"
              else if difficultyScore > 40 then "medium"
              else if difficultyScore > 20 then "moderate"
              else "easy"
            { data :=
                { keyword := keyword
                  difficulty_score := some difficultyScore
                  complexity := complexity
                  competition_level :=
                    if difficultyScore > 70 then "high"
                    else if difficultyScore > 40 then "medium"
                    else "low" }
              cost := cost }

/-- One item of a keyword-data task result, as getGoogleKeywordData reads it. -/
structure KeywordItem where
  search_volume : Option ℚ := none
  competition : Option ℚ := none
  competition_level : Option String := none
  cpc : Option ℚ := none
  monthly_searches : Option (List MonthPoint) := none
deriving DecidableEq

/-- The `data` record produced by researchService.getGoogleKeywordData. -/
structure GoogleDataR where
  search_volume : ℚ
  competition : ℚ
  cpc : ℚ
  competition_level : String
  monthly_searches : List MonthPoint
  serp_features : List String
  serp_analysis : SerpAnalysis
  intent : String
  trend : String
  paid_competition : PaidCompetition
deriving DecidableEq

structure GoogleOutcome where
  data : GoogleDataR
  cost : ℚ
deriving DecidableEq

/-- researchService.getGoogleKeywordData, parametrised by the outcomes of its three
upstream calls (keyword metrics, organic SERP, dedicated paid-ads SERP). A failure of the
keyword call or of its envelope extraction propagates (the outer catch rethrows); SERP and
paid-ads failures are caught by the inner try/catch blocks and only degrade the output. -/
def getGoogleKeywordDataR (keyword : String)
    (keywordCall : Except String (DFSResponse KeywordItem))
    (serpCall : Except String (DFSResponse SerpResultEntry))
    (paidCall : Except String (DFSResponse SerpResultEntry)) :
    Except String GoogleOutcome :=
  match keywordCall with
  | .error e => .error e
  | .ok keywordResponse =>
      match extractFirstTaskResults (some keywordResponse) with
      | .error e => .error e
      | .ok keywordResults =>
          let keywordSummary := getResponseSummary (some keywordResponse)
          let serpState : List String × String × Option PaidCompetition :=
            match serpCall with
            | .error _ => ([], "unknown", none)
            | .ok serpResponse =>
                match extractSerpResults (some serpResponse) with
                | .error _ => ([], "unknown", none)
                | .ok serpItems =>
                    (analyzeSerpFeatures serpItems, determineSearchIntent serpItems keyword,
                     some (analyzePaidCompetition serpItems "google"))
          let serpFeatures := serpState.1
          let intent := serpState.2.1
          let paid0 := serpState.2.2
          -- dedicated Google Paid Ads attempt when no ads were found so far
          let paidCompetitionAnalysis :=
            if (match paid0 with
                | none => true
                | some p => p.ads_count = 0) then
              match paidCall with
              | .error _ => paid0
              | .ok paidResponse =>
                  match extractSerpResults (some paidResponse) with
                  | .error _ => paid0
                  | .ok paidItems => some (analyzePaidCompetition paidItems "google")
            else paid0
          let keywordData := keywordResults.headD {}
          let competition := keywordData.competition.getD 0
          .ok
            { data :=
                { search_volume := keywordData.search_volume.getD 0
                  competition := competition
                  cpc := keywordData.cpc.getD 0
                  competition_level := competitionLevel competition
                  monthly_searches := keywordData.monthly_searches.getD []
                  serp_features := serpFeatures
                  serp_analysis := analyzeSerpStrategy serpFeatures
                  intent := intent
                  trend := calculateTrend (keywordData.monthly_searches.getD [])
                  paid_competition := paidCompetitionAnalysis.getD
                    { ads_count := 0
                      competition_level := "none"
                      advertiser_domains := []
                      strategic_insights := ["No paid competition data available"] } }
              cost := keywordSummary.totalCost }

/-- `searchEngines.google` in researchService.getKeywordIntelligence: the adapter data
spread together with the difficulty fields and advanced trends. -/
structure EnhancedGoogle where
  base : GoogleDataR
  difficulty_score : Option ℚ
  complexity : String
  advanced_trends : AdvancedTrend
deriving DecidableEq

/-- The bing fields researchService.generateKeywordSummary reads. -/
structure BingView where
  total_results : ℕ
deriving DecidableEq

/-- The youtube fields researchService.generateKeywordSummary reads. -/
structure YouTubeView where
  video_count : ℕ
deriving DecidableEq

structure KeywordSummary where
  total_volume : ℚ
  best_platform : String
  overall_competition : String
  recommended_strategy : String
deriving DecidableEq

/-- researchService.generateKeywordSummary. -/
def generateKeywordSummaryR (google : Option EnhancedGoogle) (bing : Option BingView)
    (youtube : Option YouTubeView) : KeywordSummary :=
  let state0 : ℚ × String × String := (0, "unknown", "unknown")
  let state1 :=
    match google with
    | some g => (state0.1 + g.base.search_volume, "google", competitionLevel g.base.competition)
    | none => state0
  let totalVolume := state1.1
  let bestPlatform1 := state1.2.1
  let overallCompetition := state1.2.2
  let bestPlatform2 :=
    match bing with
    | some b =>
        if (b.total_results : ℚ) > totalVolume ∧ totalVolume > 0 then "multi-platform"
        else if totalVolume = 0 ∧ 0 < b.total_results then "bing"
        else bestPlatform1
    | none => bestPlatform1
  let bestPlatform3 :=
    match youtube with
    | some y =>
        if y.video_count > 100 then
          if bestPlatform2 = "unknown" then "youtube" else "multi-platform"
        else bestPlatform2
    | none => bestPlatform2
  let recommendedStrategy :=
    if overallCompetition = "high" then "target long-tail variations"
    else if overallCompetition = "low" ∧ totalVolume > 1000 then "opportunity for quick wins"
    else if totalVolume < 100 then "consider broader keyword variants"
    else "focus on content quality"
  let recommendedStrategy2 :=
    if bestPlatform3 = "multi-platform" then "diversify across multiple platforms"
    else recommendedStrategy
  { total_volume := totalVolume
    best_platform := bestPlatform3
    overall_competition := overallCompetition
    recommended_strategy := recommendedStrategy2 }

structure KIResultR where
  google : Option EnhancedGoogle
  summary : KeywordSummary
  sources_queried : List String
  total_cost : ℚ
deriving DecidableEq

/-- researchService.getKeywordIntelligence, `source = "google"` branch: Promise.all of the
Google adapter and getKeywordDifficulty. A rejection of either promise would be rethrown,
but getKeywordDifficulty never rejects, so only the adapter can fail the request. -/
def getKeywordIntelligenceGoogle (keyword : String)
    (keywordCall : Except String (DFSResponse KeywordItem))
    (serpCall paidCall : Except String (DFSResponse SerpResultEntry))
    (difficultyCall : Except String (DFSResponse DifficultyResultEntry)) :
    Except String KIResultR :=
  match getGoogleKeywordDataR keyword keywordCall serpCall paidCall with
  | .error e => .error e
  | .ok googleData =>
      let googleDifficultyData := getKeywordDifficulty keyword difficultyCall
      let enhanced : EnhancedGoogle :=
        { base := googleData.data
          difficulty_score := googleDifficultyData.data.difficulty_score
          complexity := googleDifficultyData.data.complexity
          advanced_trends := calculateAdvancedTrend googleData.data.monthly_searches }
      .ok { google := some enhanced
            summary := generateKeywordSummaryR (some enhanced) none none
            sources_queried := ["google"]
            total_cost := googleData.cost + googleDifficultyData.cost }

/-- The `data` record of getGoogleKeywordData in the multi-source service variant
(src/unnamed/part_004). -/
structure GoogleData04 where
  search_volume : ℚ
  competition : ℚ
  cpc : ℚ
  competition_level : String
  monthly_searches : List MonthPoint
  serp_features : List String
  intent : String
  trend : String
deriving DecidableEq

/-- The `data` record of getBingKeywordData (part_004). -/
structure BingData04 where
  search_volume : ℚ
  results : List SerpItem
  total_results : ℕ
  serp_features : List String
  intent : String
  platform : String
deriving DecidableEq

/-- The `data` record of getYouTubeKeywordData (part_004). -/
structure YouTubeData04 where
  video_count : ℕ
  videos : List SerpItem
  platform : String
deriving DecidableEq

/-- generateKeywordSummary of the multi-source variant (part_004); same logic as the
researchService version, reading the per-source records of that file. -/
def generateKeywordSummary04 (google : Option GoogleData04) (bing : Option BingData04)
    (youtube : Option YouTubeData04) : KeywordSummary :=
  let state0 : ℚ × String × String := (0, "unknown", "unknown")
  let state1 :=
    match google with
    | some g => (state0.1 + g.search_volume, "google", competitionLevel g.competition)
    | none => state0
  let totalVolume := state1.1
  let bestPlatform1 := state1.2.1
  let overallCompetition := state1.2.2
  let bestPlatform2 :=
    match bing with
    | some b =>
        if (b.total_results : ℚ) > totalVolume ∧ totalVolume > 0 then "multi-platform"
        else if totalVolume = 0 ∧ 0 < b.total_results then "bing"
        else bestPlatform1
    | none => bestPlatform1
  let bestPlatform3 :=
    match youtube with
    | some y =>
        if y.video_count > 100 then
          if bestPlatform2 = "unknown" then "youtube" else "multi-platform"
        else bestPlatform2
    | none => bestPlatform2
  let recommendedStrategy :=
    if overallCompetition = "high" then "target long-tail variations"
    else if overallCompetition = "low" ∧ totalVolume > 1000 then "opportunity for quick wins"
    else if totalVolume < 100 then "consider broader keyword variants"
    else "focus on content quality"
  let recommendedStrategy2 :=
    if bestPlatform3 = "multi-platform" then "diversify across multiple platforms"
    else recommendedStrategy
  { total_volume := totalVolume
    best_platform := bestPlatform3
    overall_competition := overallCompetition
    recommended_strategy := recommendedStrategy2 }

/-- The KeywordIntelligenceResult of the multi-source variant. Note: the record has no
field for per-source errors. -/
structure KIResult04 where
  google : Option GoogleData04 := none
  bing : Option BingData04 := none
  youtube : Option YouTubeData04 := none
  summary : KeywordSummary
  sources_queried : List String
  total_cost : ℚ
deriving DecidableEq

/-- getKeywordIntelligence of the multi-source variant (part_004), parametrised by the
outcome (data, cost) of each source adapter. Each adapter call sits in its own try/catch:
a failure is logged and skipped; nothing records it in the returned result. The function
itself never throws. -/
def getKeywordIntelligence04 (sources : List String)
    (googleOutcome : Except String (GoogleData04 × ℚ))
    (bingOutcome : Except String (BingData04 × ℚ))
    (youtubeOutcome : Except String (YouTubeData04 × ℚ)) : KIResult04 :=
  let googleStep : Option GoogleData04 × ℚ × List String :=
    if "google" ∈ sources ∨ "all" ∈ sources then
      match googleOutcome with
      | .ok gc => (some gc.1, gc.2, ["google"])
      | .error _ => (none, 0, [])
    else (none, 0, [])
  let bingStep : Option BingData04 × ℚ × List String :=
    if "bing" ∈ sources ∨ "all" ∈ sources then
      match bingOutcome with
      | .ok bc => (some bc.1, bc.2, ["bing"])
      | .error _ => (none, 0, [])
    else (none, 0, [])
  let youtubeStep : Option YouTubeData04 × ℚ × List String :=
    if "youtube" ∈ sources ∨ "all" ∈ sources then
      match youtubeOutcome with
      | .ok yc => (some yc.1, yc.2, ["youtube"])
      | .error _ => (none, 0, [])
    else (none, 0, [])
  { google := googleStep.1
    bing := bingStep.1
    youtube := youtubeStep.1
    summary := generateKeywordSummary04 googleStep.1 bingStep.1 youtubeStep.1
    sources_queried := googleStep.2.2 ++ bingStep.2.2 ++ youtubeStep.2.2
    total_cost := googleStep.2.1 + bingStep.2.1 + youtubeStep.2.1 }

/-! Concrete test data used in witness and counterexample statements. -/

/-- An operation that fails with HTTP 429 on its first three invocations, then succeeds. -/
def opRateLimitedThrice : ℕ → Except JsError ℕ := fun n =>
  if n < 3 then .error (.response { status := 429 }) else .ok 42

/-- An operation that always fails with HTTP 401. -/
def opUnauthorized : ℕ → Except JsError ℕ := fun _ =>
  .error (.response { status := 401 })

/-- An operation that always fails with HTTP 429. -/
def opAlwaysRateLimited : ℕ → Except JsError ℕ := fun _ =>
  .error (.response { status := 429 })

/-- An operation whose first attempt fails 429 with reported cost 1 and whose second
attempt fails 401 with reported cost 2. -/
def opCostlyFailures : ℕ → Except JsError ℕ := fun n =>
  if n = 0 then .error (.response { status := 429, data_cost := some 1 })
  else .error (.response { status := 401, data_cost := some 2 })

/-- A successful keyword-data envelope: one task, volume 12000, competition 0.55. -/
def kwEnvDemo : DFSResponse KeywordItem :=
  { status_code := some 20000
    tasks := some
      [{ status_code := some 20000
         cost := some (1/20)
         result := some
           [{ search_volume := some 12000
              competition := some (11/20)
              cpc := some (5/2) }] }] }

/-- The orchestration result for the demo inputs where the difficulty call fails with an
insufficient-credits error and both SERP calls fail. -/
def kiGoogleDemo : Except String KIResultR :=
  getKeywordIntelligenceGoogle "digital marketing" (.ok kwEnvDemo)
    (.error "SERP unavailable") (.error "SERP unavailable")
    (.error "Google keyword difficulty API failed: 402 Payment Required")

/-- A Bing adapter payload for the multi-source orchestrator demos. -/
def bingDataDemo : BingData04 :=
  { search_volume := 0
    results := []
    total_results := 5
    serp_features := []
    intent := "informational"
    platform := "bing" }

/-- A SERP item tagged as a featured snippet. -/
def snippetItem : SerpItem := { type := some "featured_snippet" }

/-- An envelope whose tasks array is empty. -/
def emptyTasksEnv : DFSResponse Unit := { tasks := some [] }

/-- An envelope whose first task failed with status code 40000. -/
def failedTaskEnv : DFSResponse Unit :=
  { tasks := some [{ status_code := some 40000, status_message := some "Payment Required." }] }

/-- An envelope whose first task succeeded with an empty result list. -/
def emptyResultsEnv : DFSResponse Unit :=
  { tasks := some [{ status_code := some 20000, result := some [] }] }

/-! Theorems. -/

/-- C1 counterexample: on an empty monthly-searches array, calculateTrend returns the
string "no data", not "insufficient_data" as the claim states. -/
theorem calculateTrend_nil_not_insufficient_data :
    calculateTrend [] = "no data" ∧ calculateTrend [] ≠ "insufficient_data" := by
  exact ⟨rfl, by decide⟩

/-- C1 (amended): for monthly-searches arrays with fewer than 2 entries, calculateTrend
returns the non-numeric sentinel "no data" while every trend field of
calculateAdvancedTrend equals "insufficient_data"; neither produces a percentage. -/
theorem trend_fields_short_input (l : List MonthPoint) (h : l.length < 2) :
    calculateTrend l = "no data" ∧
    (calculateAdvancedTrend l).monthly_trend = "insufficient_data" ∧
    (calculateAdvancedTrend l).quarterly_trend = "insufficient_data" ∧
    (calculateAdvancedTrend l).yearly_trend = "insufficient_data" := by
  have h3 : l.length < 3 := by omega
  refine ⟨?_, ?_, ?_, ?_⟩
  · unfold calculateTrend
    rw [if_pos h]
  all_goals
    unfold calculateAdvancedTrend
    rw [if_pos h3]

/-- C1 witness: the amended statement evaluated on the empty array. -/
theorem trend_fields_short_input_witness :
    calculateTrend [] = "no data" ∧
    (calculateAdvancedTrend []).monthly_trend = "insufficient_data" ∧
    (calculateAdvancedTrend []).quarterly_trend = "insufficient_data" ∧
    (calculateAdvancedTrend []).yearly_trend = "insufficient_data" :=
  trend_fields_short_input [] (by decide)

/-- C7: the competition tier is high for scores strictly above 0.7, medium for scores in
(0.4, 0.7], and low otherwise; in particular 0.75 is high, 0.45 medium, 0.10 low, and the
boundary scores 0.7 and 0.4 fall to the lower tier because the comparisons are strict. -/
theorem competitionLevel_tiers (s : ℚ) :
    (s > 7/10 → competitionLevel s = "high") ∧
    (4/10 < s ∧ s ≤ 7/10 → competitionLevel s = "medium") ∧
    (s ≤ 4/10 → competitionLevel s = "low") ∧
    competitionLevel (3/4) = "high" ∧
    competitionLevel (9/20) = "medium" ∧
    competitionLevel (1/10) = "low" ∧
    competitionLevel (7/10) = "medium" ∧
    competitionLevel (2/5) = "low" := by
  refine ⟨fun h => ?_, fun h => ?_, fun h => ?_, ?_, ?_, ?_, ?_, ?_⟩
  · unfold competitionLevel
    rw [if_pos h]
  · unfold competitionLevel
    rw [if_neg (by push_neg; linarith [h.2]), if_pos h.1]
  · unfold competitionLevel
    rw [if_neg (by push_neg; linarith), if_neg (by push_neg; linarith)]
  all_goals norm_num [competitionLevel]

/-- C7 witness: the tier rule applied at the concrete score 0.75. -/
theorem competitionLevel_tiers_witness : competitionLevel (3/4) = "high" :=
  (competitionLevel_tiers (3/4)).1 (by norm_num)

/-- C8: extractFirstTaskResults fails with the no-tasks error on an empty tasks array and
with a task-failed error carrying the upstream status message and code on a first task
whose status code is not 20000; extractFirstResultItem additionally fails with the
no-results error when the first task succeeds with an empty result list. -/
theorem extractor_failure_modes {α : Type} :
    (∀ r : DFSResponse α, r.tasks = some [] →
      extractFirstTaskResults (some r) =
        .error "Invalid DataForSEO response: no tasks found") ∧
    (∀ (r : DFSResponse α) (t : DFSTask α) (ts : List (DFSTask α)) (msg : String)
        (code : ℤ),
      r.tasks = some (t :: ts) → t.status_code = some code → code ≠ 20000 →
      t.status_message = some msg →
      extractFirstTaskResults (some r) =
        .error ("DataForSEO task failed: " ++ msg ++ " (code: " ++ toString code ++ ")")) ∧
    (∀ (r : DFSResponse α) (t : DFSTask α) (ts : List (DFSTask α)),
      r.tasks = some (t :: ts) → t.status_code = some 20000 → t.result.getD [] = [] →
      extractFirstResultItem (some r) =
        .error "No results found in DataForSEO response") := by
  refine ⟨fun r h => ?_, fun r t ts msg code h1 h2 h3 h4 => ?_, fun r t ts h1 h2 h3 => ?_⟩
  · simp only [extractFirstTaskResults]
    rw [h]
  · have hne : t.status_code ≠ some 20000 := by
      rw [h2]
      simp [h3]
    simp only [extractFirstTaskResults, h1]
    rw [if_pos hne, h2, h4]
    rfl
  · have hfirst : extractFirstTaskResults (some r) = .ok ([] : List α) := by
      simp only [extractFirstTaskResults, h1]
      rw [if_neg (by simp [h2]), h3]
    unfold extractFirstResultItem
    rw [hfirst]

/-- C8 witness: the three failure modes evaluated on concrete envelopes, with task status
code 40000 for the task-failed case. -/
theorem extractor_failure_modes_witness :
    extractFirstTaskResults (some emptyTasksEnv) =
      .error "Invalid DataForSEO response: no tasks found" ∧
    extractFirstTaskResults (some failedTaskEnv) =
      .error ("DataForSEO task failed: " ++ "Payment Required." ++ " (code: " ++
        toString (40000 : ℤ) ++ ")") ∧
    extractFirstResultItem (some emptyResultsEnv) =
      .error "No results found in DataForSEO response" := by
  refine ⟨extractor_failure_modes.1 _ rfl,
    extractor_failure_modes.2.1 _ _ [] "Payment Required." 40000 rfl rfl (by decide) rfl,
    extractor_failure_modes.2.2 _ _ [] rfl rfl rfl⟩

theorem mem_ite_singleton {c : Prop} [Decidable c] (a b : String) :
    (a ∈ (if c then [b] else ([] : List String))) ↔ (c ∧ a = b) := by
  split <;> simp_all

theorem mem_dedupFirstAux (a : String) :
    ∀ (l seen : List String), a ∈ dedupFirstAux seen l ↔ a ∈ l ∧ a ∉ seen := by
  intro l
  induction l with
  | nil => intro seen; simp [dedupFirstAux]
  | cons x xs ih =>
      intro seen
      by_cases hx : x ∈ seen
      · rw [dedupFirstAux, if_pos hx, ih]
        constructor
        · rintro ⟨h1, h2⟩
          exact ⟨List.mem_cons_of_mem _ h1, h2⟩
        · rintro ⟨h1, h2⟩
          rcases List.mem_cons.mp h1 with h1 | h1
          · exact absurd (h1 ▸ hx) h2
          · exact ⟨h1, h2⟩
      · rw [dedupFirstAux, if_neg hx]
        constructor
        · intro h
          rcases List.mem_cons.mp h with h | h
          · exact ⟨h ▸ List.mem_cons_self x xs, h ▸ hx⟩
          · obtain ⟨h1, h2⟩ := (ih (x :: seen)).mp h
            exact ⟨List.mem_cons_of_mem _ h1, fun hs => h2 (List.mem_cons_of_mem _ hs)⟩
        · rintro ⟨h1, h2⟩
          rcases List.mem_cons.mp h1 with h1 | h1
          · exact h1 ▸ List.mem_cons_self x _
          · by_cases hax : a = x
            · exact hax ▸ List.mem_cons_self x _
            · exact List.mem_cons_of_mem _ ((ih (x :: seen)).mpr
                ⟨h1, fun hs => (List.mem_cons.mp hs).elim hax h2⟩)

theorem mem_dedupFirst (a : String) (l : List String) : a ∈ dedupFirst l ↔ a ∈ l := by
  rw [dedupFirst, mem_dedupFirstAux]
  simp

theorem nodup_dedupFirstAux : ∀ (l seen : List String), (dedupFirstAux seen l).Nodup := by
  intro l
  induction l with
  | nil => intro seen; simp [dedupFirstAux]
  | cons x xs ih =>
      intro seen
      by_cases hx : x ∈ seen
      · rw [dedupFirstAux, if_pos hx]
        exact ih seen
      · rw [dedupFirstAux, if_neg hx]
        refine List.nodup_cons.mpr ⟨fun hmem => ?_, ih (x :: seen)⟩
        exact ((mem_dedupFirstAux x xs (x :: seen)).mp hmem).2 (List.mem_cons_self x seen)

theorem nodup_dedupFirst (l : List String) : (dedupFirst l).Nodup :=
  nodup_dedupFirstAux l []

theorem foldl_ctr_delta :
    ∀ (l : List String) (init : ℤ),
      l.foldl (fun acc feature => acc + featureCtrDelta feature) init =
        init + (l.map featureCtrDelta).sum := by
  intro l
  induction l with
  | nil => intro init; simp
  | cons x xs ih =>
      intro init
      simp [List.foldl_cons, ih, add_assoc]

theorem mem_itemFeatureTags_snippet (item : SerpItem) :
    "featured_snippet" ∈ itemFeatureTags item ↔ item.type = some "featured_snippet" := by
  simp [itemFeatureTags, mem_ite_singleton]

/-- C9: the derived feature list contains no duplicates; featured_snippet is present
exactly when some item has that type; the estimated CTR impact is the sum of each present
feature's fixed penalty, applied once per feature, floor-capped at -50; and on a list with
two featured_snippet items the feature appears once and the impact is a single -8. -/
theorem serp_features_dedup_and_ctr (serpResults : List SerpItem) :
    (analyzeSerpFeatures serpResults).Nodup ∧
    ("featured_snippet" ∈ analyzeSerpFeatures serpResults ↔
      ∃ item ∈ serpResults, item.type = some "featured_snippet") ∧
    (analyzeSerpStrategy (analyzeSerpFeatures serpResults)).estimated_ctr_impact =
      max (((analyzeSerpFeatures serpResults).map featureCtrDelta).sum) (-50) ∧
    -50 ≤ (analyzeSerpStrategy (analyzeSerpFeatures serpResults)).estimated_ctr_impact ∧
    analyzeSerpFeatures [snippetItem, snippetItem] = ["featured_snippet"] ∧
    (analyzeSerpStrategy
      (analyzeSerpFeatures [snippetItem, snippetItem])).estimated_ctr_impact = -8 := by
  refine ⟨nodup_dedupFirst _, ?_, ?_, ?_, ?_, ?_⟩
  · rw [analyzeSerpFeatures, mem_dedupFirst]
    simp [List.mem_flatten, mem_itemFeatureTags_snippet]
  · simp [analyzeSerpStrategy, foldl_ctr_delta]
  · simp [analyzeSerpStrategy, foldl_ctr_delta]
  · rfl
  · rfl

theorem adTitleBonus_nonneg (ad : SerpItem) : 0 ≤ adTitleBonus ad := by
  cases h : ad.title with
  | none => simp [adTitleBonus, h]
  | some t =>
      simp only [adTitleBonus, h]
      split_ifs <;> norm_num

theorem adDescriptionBonus_nonneg (ad : SerpItem) : 0 ≤ adDescriptionBonus ad := by
  cases h : ad.description with
  | none => simp [adDescriptionBonus, h]
  | some d =>
      simp only [adDescriptionBonus, h]
      split_ifs <;> norm_num

theorem adAclkBonus_nonneg (ad : SerpItem) : 0 ≤ adAclkBonus ad := by
  unfold adAclkBonus
  split_ifs <;> norm_num

theorem adRatingBonus_nonneg (ad : SerpItem) : 0 ≤ adRatingBonus ad := by
  cases h : ad.rating with
  | none => simp [adRatingBonus, h]
  | some r =>
      cases h2 : r.value with
      | none => simp [adRatingBonus, h, h2]
      | some v =>
          simp only [adRatingBonus, h, h2]
          split_ifs <;> norm_num

theorem adPriceBonus_nonneg (ad : SerpItem) : 0 ≤ adPriceBonus ad := by
  unfold adPriceBonus
  split_ifs <;> norm_num

theorem adRectangleBonus_nonneg (ad : SerpItem) : 0 ≤ adRectangleBonus ad := by
  cases h : ad.rectangle_items with
  | none => simp [adRectangleBonus, h]
  | some items =>
      simp only [adRectangleBonus, h]
      split_ifs <;> norm_num

theorem adBrandBonus_nonneg (ad : SerpItem) : 0 ≤ adBrandBonus ad := by
  unfold adBrandBonus
  split_ifs <;> norm_num

theorem card_mul_le_sum (c : ℚ) :
    ∀ l : List ℚ, (∀ x ∈ l, c ≤ x) → c * l.length ≤ l.sum := by
  intro l
  induction l with
  | nil => intro _; simp
  | cons x xs ih =>
      intro h
      have hx := h x (List.mem_cons_self _ _)
      have hxs := ih (fun y hy => h y (List.mem_cons_of_mem _ hy))
      simp only [List.sum_cons, List.length_cons]
      push_cast
      linarith

theorem sum_le_card_mul (c : ℚ) :
    ∀ l : List ℚ, (∀ x ∈ l, x ≤ c) → l.sum ≤ c * l.length := by
  intro l
  induction l with
  | nil => intro _; simp
  | cons x xs ih =>
      intro h
      have hx := h x (List.mem_cons_self _ _)
      have hxs := ih (fun y hy => h y (List.mem_cons_of_mem _ hy))
      simp only [List.sum_cons, List.length_cons]
      push_cast
      linarith

/-- C10: every per-ad quality score lies in [5, 10] (base 5 plus non-negative bonuses,
capped at 10), so whenever at least one paid ad is present the reported
average_ad_quality is between 5 and 10 — strictly narrower than the documented [0, 10]. -/
theorem adQuality_range :
    (∀ ad : SerpItem, 5 ≤ calculateAdQuality ad ∧ calculateAdQuality ad ≤ 10) ∧
    (∀ (serpResults : List SerpItem) (platform : String),
      0 < (analyzePaidCompetition serpResults platform).ads_count →
      ∃ q, (analyzePaidCompetition serpResults platform).average_ad_quality = some q ∧
        5 ≤ q ∧ q ≤ 10) := by
  have hquality : ∀ ad : SerpItem, 5 ≤ calculateAdQuality ad ∧ calculateAdQuality ad ≤ 10 := by
    intro ad
    constructor
    · refine le_min ?_ (by norm_num)
      have h1 := adTitleBonus_nonneg ad
      have h2 := adDescriptionBonus_nonneg ad
      have h3 := adAclkBonus_nonneg ad
      have h4 := adRatingBonus_nonneg ad
      have h5 := adPriceBonus_nonneg ad
      have h6 := adRectangleBonus_nonneg ad
      have h7 := adBrandBonus_nonneg ad
      linarith
    · exact min_le_right _ _
  refine ⟨hquality, fun serpResults platform h => ?_⟩
  by_cases hlen : (serpResults.filter (fun result => result.type == some "paid")).length = 0
  · rw [analyzePaidCompetition, if_pos hlen] at h
    exact absurd h (by simp)
  · rw [analyzePaidCompetition, if_neg hlen] at h ⊢
    refine ⟨_, rfl, ?_, ?_⟩
    all_goals
      set paid := serpResults.filter (fun result => result.type == some "paid") with hpaid
      have hpos : 0 < ((paid.map calculateAdQuality).length : ℚ) := by
        simp only [List.length_map]
        exact_mod_cast Nat.pos_of_ne_zero hlen
      have havg5 : 5 ≤ (paid.map calculateAdQuality).sum /
          ((paid.map calculateAdQuality).length : ℚ) := by
        rw [le_div_iff₀ hpos]
        calc (5 : ℚ) * (paid.map calculateAdQuality).length
            ≤ (paid.map calculateAdQuality).sum := by
              refine card_mul_le_sum 5 _ (fun x hx => ?_)
              obtain ⟨ad, _, rfl⟩ := List.mem_map.mp hx
              exact (hquality ad).1
          _ = (paid.map calculateAdQuality).sum := rfl
      have havg10 : (paid.map calculateAdQuality).sum /
          ((paid.map calculateAdQuality).length : ℚ) ≤ 10 := by
        rw [div_le_iff₀ hpos]
        calc (paid.map calculateAdQuality).sum
            ≤ 10 * (paid.map calculateAdQuality).length := by
              refine sum_le_card_mul 10 _ (fun x hx => ?_)
              obtain ⟨ad, _, rfl⟩ := List.mem_map.mp hx
              exact (hquality ad).2
          _ = 10 * (paid.map calculateAdQuality).length := rfl
      rw [if_pos (by exact_mod_cast hpos)]
    · -- 5 ≤ round(avg * 10) / 10
      rw [le_div_iff₀ (by norm_num : (0:ℚ) < 10)]
      have h50 : (50 : ℤ) ≤ jsRound (((paid.map calculateAdQuality).sum /
          ((paid.map calculateAdQuality).length : ℚ)) * 10) := by
        rw [jsRound]
        refine Int.le_floor.mpr ?_
        push_cast
        nlinarith
      calc (5 : ℚ) * 10 = ((50 : ℤ) : ℚ) := by norm_num
        _ ≤ _ := by exact_mod_cast h50
    · -- round(avg * 10) / 10 ≤ 10
      rw [div_le_iff₀ (by norm_num : (0:ℚ) < 10)]
      have h100 : jsRound (((paid.map calculateAdQuality).sum /
          ((paid.map calculateAdQuality).length : ℚ)) * 10) ≤ 100 := by
        rw [jsRound]
        have : ((paid.map calculateAdQuality).sum /
            ((paid.map calculateAdQuality).length : ℚ)) * 10 + 1/2 < 101 := by nlinarith
        have hfl := Int.floor_lt.mpr (by exact_mod_cast this :
          ((paid.map calculateAdQuality).sum /
            ((paid.map calculateAdQuality).length : ℚ)) * 10 + 1/2 < ((101 : ℤ) : ℚ))
        omega
      calc ((jsRound _ : ℤ) : ℚ) ≤ ((100 : ℤ) : ℚ) := by exact_mod_cast h100
        _ = 10 * 10 := by norm_num

/-- C10 witness: a single bare paid ad yields an average ad quality in [5, 10]. -/
theorem adQuality_range_witness :
    ∃ q, (analyzePaidCompetition [{ type := some "paid" }] "google").average_ad_quality =
      some q ∧ 5 ≤ q ∧ q ≤ 10 :=
  adQuality_range.2 [{ type := some "paid" }] "google" (by decide)

theorem handleApiError_429 (r : JsHttpResponse) (endpoint : Option String)
    (h : r.status = 429) :
    handleApiError (.response r) endpoint =
      { statusCode := 429, message := "DataForSEO API rate limit exceeded",
        endpoint := endpoint, retryable := true, cost := some (r.data_cost.getD 0) } := by
  simp [handleApiError, h]

theorem handleApiError_401 (r : JsHttpResponse) (endpoint : Option String)
    (h : r.status = 401) :
    handleApiError (.response r) endpoint =
      { statusCode := 401, message := "Invalid DataForSEO API credentials",
        endpoint := endpoint, retryable := false, cost := some (r.data_cost.getD 0) } := by
  simp [handleApiError, h]

theorem withRetryGo_ok {T : Type} {op : ℕ → Except JsError T} {endpoint : Option String}
    {maxRetries baseDelay attempt : ℕ} {totalCost : ℚ} {delays : List ℕ}
    {lastError : Option DataForSEOError} {fuel : ℕ} {v : T} (h : op attempt = .ok v)
    (hf : fuel ≠ 0) :
    withRetryGo op endpoint maxRetries baseDelay attempt totalCost delays lastError fuel =
      { result := .ok v, attempts := attempt + 1, delays := delays,
        totalCostAccum := totalCost } := by
  cases fuel with
  | zero => exact absurd rfl hf
  | succ n => simp only [withRetryGo, h]

theorem withRetryGo_terminal {T : Type} {op : ℕ → Except JsError T}
    {endpoint : Option String} {maxRetries baseDelay attempt : ℕ} {totalCost : ℚ}
    {delays : List ℕ} {lastError : Option DataForSEOError} {fuel : ℕ} {e : JsError}
    (h : op attempt = .error e)
    (hcond : (handleApiError e endpoint).retryable = false ∨ attempt = maxRetries)
    (hf : fuel ≠ 0) :
    withRetryGo op endpoint maxRetries baseDelay attempt totalCost delays lastError fuel =
      { result := .error (handleApiError e endpoint), attempts := attempt + 1,
        delays := delays,
        totalCostAccum := totalCost + (handleApiError e endpoint).cost.getD 0 } := by
  cases fuel with
  | zero => exact absurd rfl hf
  | succ n =>
      simp only [withRetryGo, h]
      rw [if_pos hcond]

theorem withRetryGo_retry {T : Type} {op : ℕ → Except JsError T}
    {endpoint : Option String} {maxRetries baseDelay attempt : ℕ} {totalCost : ℚ}
    {delays : List ℕ} {lastError : Option DataForSEOError} {fuel : ℕ} {e : JsError}
    (h : op attempt = .error e) (h1 : (handleApiError e endpoint).retryable = true)
    (h2 : attempt ≠ maxRetries) (hf : fuel ≠ 0) :
    withRetryGo op endpoint maxRetries baseDelay attempt totalCost delays lastError fuel =
      withRetryGo op endpoint maxRetries baseDelay (attempt + 1)
        (totalCost + (handleApiError e endpoint).cost.getD 0)
        (delays ++ [baseDelay * 2 ^ attempt]) (some (handleApiError e endpoint))
        (fuel - 1) := by
  cases fuel with
  | zero => exact absurd rfl hf
  | succ n =>
      simp only [withRetryGo, h, Nat.succ_sub_one]
      rw [if_neg (by simp [h1, h2])]

/-- C2: with maxRetries = 3 and baseDelay = 1000 (the configured defaults), an operation
that fails with HTTP 429 on its first three invocations and then succeeds is invoked
exactly 4 times with sleeps of 1000, 2000, 4000 ms in order, and an operation that fails
with HTTP 401 is invoked exactly once, surfacing a non-retryable error. -/
theorem withRetry_429_thrice_and_401 {T : Type} (op opB : ℕ → Except JsError T)
    (endpoint : Option String) (v : T)
    (h429 : ∀ n, n < 3 → ∃ r, op n = .error (.response r) ∧ r.status = 429)
    (hok : op 3 = .ok v)
    (rB : JsHttpResponse) (hB : opB 0 = .error (.response rB)) (hBs : rB.status = 401) :
    (withRetry op endpoint 3 1000).result = .ok v ∧
    (withRetry op endpoint 3 1000).attempts = 4 ∧
    (withRetry op endpoint 3 1000).delays = [1000, 2000, 4000] ∧
    (withRetry opB endpoint 3 1000).attempts = 1 ∧
    (withRetry opB endpoint 3 1000).delays = [] ∧
    (∃ e, (withRetry opB endpoint 3 1000).result = .error e ∧ e.retryable = false) := by
  obtain ⟨r0, h0, hs0⟩ := h429 0 (by norm_num)
  obtain ⟨r1, h1, hs1⟩ := h429 1 (by norm_num)
  obtain ⟨r2, h2, hs2⟩ := h429 2 (by norm_num)
  have hr0 : (handleApiError (.response r0) endpoint).retryable = true := by
    rw [handleApiError_429 r0 endpoint hs0]
  have hr1 : (handleApiError (.response r1) endpoint).retryable = true := by
    rw [handleApiError_429 r1 endpoint hs1]
  have hr2 : (handleApiError (.response r2) endpoint).retryable = true := by
    rw [handleApiError_429 r2 endpoint hs2]
  have hA : withRetry op endpoint 3 1000 =
      { result := .ok v, attempts := 4, delays := [1000, 2000, 4000],
        totalCostAccum := 0 + (handleApiError (.response r0) endpoint).cost.getD 0 +
          (handleApiError (.response r1) endpoint).cost.getD 0 +
          (handleApiError (.response r2) endpoint).cost.getD 0 } := by
    rw [withRetry]
    rw [withRetryGo_retry h0 hr0 (by norm_num) (by norm_num)]
    norm_num
    rw [withRetryGo_retry h1 hr1 (by norm_num) (by norm_num)]
    norm_num
    rw [withRetryGo_retry h2 hr2 (by norm_num) (by norm_num)]
    norm_num
    rw [withRetryGo_ok hok (by norm_num)]
  have hBrec : withRetry opB endpoint 3 1000 =
      { result := .error (handleApiError (.response rB) endpoint), attempts := 1,
        delays := [],
        totalCostAccum := 0 + (handleApiError (.response rB) endpoint).cost.getD 0 } := by
    rw [withRetry]
    rw [withRetryGo_terminal hB
      (Or.inl (by rw [handleApiError_401 rB endpoint hBs])) (by norm_num)]
  refine ⟨by rw [hA], by rw [hA], by rw [hA], by rw [hBrec], by rw [hBrec],
    ⟨handleApiError (.response rB) endpoint, by rw [hBrec],
      by rw [handleApiError_401 rB endpoint hBs]⟩⟩

/-- C2 witness: the retry behaviour evaluated on concrete 429-thrice-then-success and
always-401 operations. -/
theorem withRetry_429_thrice_and_401_witness :
    (withRetry opRateLimitedThrice none 3 1000).result = .ok 42 ∧
    (withRetry opRateLimitedThrice none 3 1000).attempts = 4 ∧
    (withRetry opRateLimitedThrice none 3 1000).delays = [1000, 2000, 4000] ∧
    (withRetry opUnauthorized none 3 1000).attempts = 1 ∧
    (withRetry opUnauthorized none 3 1000).delays = [] ∧
    (∃ e, (withRetry opUnauthorized none 3 1000).result = .error e ∧
      e.retryable = false) :=
  withRetry_429_thrice_and_401 opRateLimitedThrice opUnauthorized none 42
    (fun n hn => ⟨{ status := 429 }, by simp [opRateLimitedThrice, hn], rfl⟩)
    (by norm_num [opRateLimitedThrice])
    { status := 401 } rfl rfl

theorem withRetryGo_shape {T : Type} (op : ℕ → Except JsError T)
    (endpoint : Option String) (maxRetries baseDelay : ℕ) :
    ∀ (fuel attempt : ℕ) (totalCost : ℚ) (lastError : Option DataForSEOError),
      attempt + fuel = maxRetries + 1 → 0 < fuel →
      ((withRetryGo op endpoint maxRetries baseDelay attempt totalCost
          ((List.range attempt).map (fun i => baseDelay * 2 ^ i)) lastError fuel).delays =
        (List.range ((withRetryGo op endpoint maxRetries baseDelay attempt totalCost
          ((List.range attempt).map (fun i => baseDelay * 2 ^ i)) lastError
          fuel).delays.length)).map (fun i => baseDelay * 2 ^ i) ∧
      (withRetryGo op endpoint maxRetries baseDelay attempt totalCost
          ((List.range attempt).map (fun i => baseDelay * 2 ^ i)) lastError
          fuel).attempts =
        (withRetryGo op endpoint maxRetries baseDelay attempt totalCost
          ((List.range attempt).map (fun i => baseDelay * 2 ^ i)) lastError
          fuel).delays.length + 1) := by
  intro fuel
  induction fuel with
  | zero =>
      intro attempt tc le hsum hpos
      exact absurd hpos (by norm_num)
  | succ n ih =>
      intro attempt tc le hsum _
      cases hop : op attempt with
      | ok v =>
          rw [withRetryGo_ok hop (Nat.succ_ne_zero n)]
          constructor <;> simp
      | error e =>
          by_cases hcond :
            (handleApiError e endpoint).retryable = false ∨ attempt = maxRetries
          · rw [withRetryGo_terminal hop hcond (Nat.succ_ne_zero n)]
            constructor <;> simp
          · push_neg at hcond
            obtain ⟨hr, hne⟩ := hcond
            have hrt : (handleApiError e endpoint).retryable = true := by
              cases hb : (handleApiError e endpoint).retryable
              · exact absurd hb hr
              · rfl
            rw [withRetryGo_retry hop hrt hne (Nat.succ_ne_zero n)]
            have harg : (List.range attempt).map (fun i => baseDelay * 2 ^ i) ++
                [baseDelay * 2 ^ attempt] =
                (List.range (attempt + 1)).map (fun i => baseDelay * 2 ^ i) := by
              rw [List.range_succ, List.map_append]
              rfl
            rw [harg]
            simp only [Nat.succ_sub_one]
            exact ih (attempt + 1) _ _ (by omega) (by omega)

/-- C3 (amended): for every operation, retry budget and base delay, the sleeps performed
by withRetry are exactly baseDelay * 2^i for i = 0, 1, ... with no cap applied (the
configured MAX_DELAY is never consulted), and the number of invocations is one more than
the number of sleeps — so no delay follows the final attempt. -/
theorem withRetry_backoff_shape {T : Type} (op : ℕ → Except JsError T)
    (endpoint : Option String) (maxRetries baseDelay : ℕ) :
    (withRetry op endpoint maxRetries baseDelay).delays =
      (List.range ((withRetry op endpoint maxRetries baseDelay).delays.length)).map
        (fun i => baseDelay * 2 ^ i) ∧
    (withRetry op endpoint maxRetries baseDelay).attempts =
      (withRetry op endpoint maxRetries baseDelay).delays.length + 1 := by
  have h := withRetryGo_shape op endpoint maxRetries baseDelay (maxRetries + 1) 0 0 none
    (by omega) (by omega)
  simpa [withRetry] using h

/-- C3 counterexample: with baseDelay = 8000 the second sleep is 16000 ms, exceeding the
configured MAX_DELAY of 10000 ms — no cap is applied. -/
theorem withRetry_delay_exceeds_max_delay :
    (withRetry opAlwaysRateLimited none 3 8000).delays = [8000, 16000, 32000] ∧
    16000 ∈ (withRetry opAlwaysRateLimited none 3 8000).delays ∧
    dataForSEOConfigRetry.MAX_DELAY = 10000 ∧
    ¬(16000 ≤ dataForSEOConfigRetry.MAX_DELAY) := by
  have hd : (withRetry opAlwaysRateLimited none 3 8000).delays = [8000, 16000, 32000] := rfl
  refine ⟨hd, by rw [hd]; norm_num, rfl, by norm_num [dataForSEOConfigRetry]⟩

theorem withRetryGo_error_from_last {T : Type} (op : ℕ → Except JsError T)
    (endpoint : Option String) (maxRetries baseDelay : ℕ) :
    ∀ (fuel attempt : ℕ) (totalCost : ℚ) (delays : List ℕ)
      (lastError : Option DataForSEOError),
      attempt + fuel = maxRetries + 1 → 0 < fuel →
      ∀ e, (withRetryGo op endpoint maxRetries baseDelay attempt totalCost delays
          lastError fuel).result = .error e →
        ∃ je, op ((withRetryGo op endpoint maxRetries baseDelay attempt totalCost delays
          lastError fuel).attempts - 1) = .error je ∧ e = handleApiError je endpoint := by
  intro fuel
  induction fuel with
  | zero =>
      intro attempt tc d le hsum hpos
      exact absurd hpos (by norm_num)
  | succ n ih =>
      intro attempt tc d le hsum _ e he
      cases hop : op attempt with
      | ok v =>
          rw [withRetryGo_ok hop (Nat.succ_ne_zero n)] at he
          exact absurd he (by simp)
      | error e0 =>
          by_cases hcond :
            (handleApiError e0 endpoint).retryable = false ∨ attempt = maxRetries
          · rw [withRetryGo_terminal hop hcond (Nat.succ_ne_zero n)] at he ⊢
            injection he with heq
            simp only [Nat.add_sub_cancel]
            exact ⟨e0, hop, heq.symm⟩
          · push_neg at hcond
            obtain ⟨hr, hne⟩ := hcond
            have hrt : (handleApiError e0 endpoint).retryable = true := by
              cases hb : (handleApiError e0 endpoint).retryable
              · exact absurd hb hr
              · rfl
            rw [withRetryGo_retry hop hrt hne (Nat.succ_ne_zero n)] at he ⊢
            simp only [Nat.succ_sub_one] at he ⊢
            exact ih (attempt + 1) _ _ _ (by omega) (by omega) e he

/-- C4 (amended): withRetry accumulates each failed attempt's classified cost into a
local running total (the totalCostAccum of the trace), but that total is neither returned
with the success value nor attached to the surfaced error: the error thrown to the caller
is exactly handleApiError applied to the final attempt's raw error, so its cost field
carries only the last attempt's cost. -/
theorem withRetry_error_is_last_classified {T : Type} (op : ℕ → Except JsError T)
    (endpoint : Option String) (maxRetries baseDelay : ℕ) (e : DataForSEOError)
    (h : (withRetry op endpoint maxRetries baseDelay).result = .error e) :
    ∃ je, op ((withRetry op endpoint maxRetries baseDelay).attempts - 1) = .error je ∧
      e = handleApiError je endpoint := by
  rw [withRetry] at h ⊢
  exact withRetryGo_error_from_last op endpoint maxRetries baseDelay (maxRetries + 1) 0 0
    [] none (by omega) (by omega) e h

/-- C4 witness: the amended statement evaluated on the costly-failures operation. -/
theorem withRetry_error_is_last_classified_witness :
    ∃ je, opCostlyFailures ((withRetry opCostlyFailures none 3 1000).attempts - 1) =
        .error je ∧
      handleApiError (.response { status := 401, data_cost := some 2 }) none =
        handleApiError je none :=
  withRetry_error_is_last_classified opCostlyFailures none 3 1000
    (handleApiError (.response { status := 401, data_cost := some 2 }) none) rfl

/-- C4 counterexample: after a 429 failure costing 1 and a 401 failure costing 2, the
local accumulator holds 3 but the surfaced error carries cost 2 — the accumulated total
is not attached to the error the caller sees. -/
theorem withRetry_total_cost_not_surfaced :
    (withRetry opCostlyFailures none 3 1000).totalCostAccum = 3 ∧
    (withRetry opCostlyFailures none 3 1000).result =
      .error (handleApiError (.response { status := 401, data_cost := some 2 }) none) ∧
    (handleApiError (.response { status := 401, data_cost := some 2 }) none).cost =
      some 2 ∧
    some (2 : ℚ) ≠ some (3 : ℚ) := by
  have h0 : opCostlyFailures 0 = .error (.response { status := 429, data_cost := some 1 }) :=
    rfl
  have h1 : opCostlyFailures 1 = .error (.response { status := 401, data_cost := some 2 }) :=
    rfl
  have hr0 : (handleApiError (.response
      { status := 429, data_cost := some 1 }) none).retryable = true := by
    rw [handleApiError_429 _ none rfl]
  have hC : withRetry opCostlyFailures none 3 1000 =
      { result := .error (handleApiError (.response
          { status := 401, data_cost := some 2 }) none)
        attempts := 2
        delays := [1000]
        totalCostAccum := 3 } := by
    rw [withRetry]
    rw [withRetryGo_retry h0 hr0 (by norm_num) (by norm_num)]
    rw [withRetryGo_terminal h1
      (Or.inl (by rw [handleApiError_401 _ none rfl])) (by norm_num)]
    norm_num [handleApiError_429, handleApiError_401]
  refine ⟨by rw [hC], by rw [hC], ?_, by norm_num [Option.some.injEq]⟩
  rw [handleApiError_401 _ none rfl]
  rfl

/-- C5 (amended): the Google source adapter fails exactly when the historical keyword-data
call or its envelope extraction fails; SERP and paid-ads failures are absorbed by inner
try/catch blocks, and a failing keyword-difficulty call never fails at all — it returns a
placeholder with difficulty_score null, an api_error note and cost 0, which the
orchestrator merges alongside the other metrics. -/
theorem google_adapter_failure_modes (keyword : String)
    (keywordCall : Except String (DFSResponse KeywordItem))
    (serpCall paidCall : Except String (DFSResponse SerpResultEntry)) :
    ((∃ e, getGoogleKeywordDataR keyword keywordCall serpCall paidCall = .error e) ↔
      (∃ e, keywordCall = .error e) ∨
      (∃ env e, keywordCall = .ok env ∧
        extractFirstTaskResults (some env) = .error e)) ∧
    (∀ msg, (getKeywordDifficulty keyword (.error msg)).data.difficulty_score = none ∧
      (getKeywordDifficulty keyword (.error msg)).data.api_error = some msg ∧
      (getKeywordDifficulty keyword (.error msg)).cost = 0) := by
  constructor
  · cases hk : keywordCall with
    | error e => simp [getGoogleKeywordDataR]
    | ok env =>
        cases hx : extractFirstTaskResults (some env) with
        | error e2 => simp [getGoogleKeywordDataR, hx]
        | ok items => simp [getGoogleKeywordDataR, hx]
  · intro msg
    exact ⟨rfl, rfl, rfl⟩

/-- C5 counterexample: with the keyword-data call succeeding (volume 12000) but the
keyword-difficulty call failing terminally, getKeywordIntelligence still succeeds and
returns merged Google metrics with difficulty_score null — the source adapter does not
fail and partial metrics are returned. -/
theorem google_adapter_merge_despite_difficulty_failure :
    kiGoogleDemo.isOk = true ∧
    (kiGoogleDemo.toOption.bind (fun r => r.google)).map
      (fun g => g.difficulty_score) = some none ∧
    (kiGoogleDemo.toOption.map (fun r => r.sources_queried)) = some ["google"] ∧
    (kiGoogleDemo.toOption.bind (fun r => r.google)).map
      (fun g => g.base.search_volume) = some 12000 ∧
    (kiGoogleDemo.toOption.bind (fun r => r.google)).map
      (fun g => g.complexity) = some "unknown" := by
  exact ⟨rfl, rfl, rfl, rfl, rfl⟩

/-- C5 witness: the amended failure characterisation applied at a failing keyword call. -/
theorem google_adapter_failure_modes_witness :
    ∃ e, getGoogleKeywordDataR "k" (.error "network down") (.error "x") (.error "x") =
      .error e :=
  (google_adapter_failure_modes "k" (.error "network down") (.error "x")
    (.error "x")).1.mpr (Or.inl ⟨"network down", rfl⟩)

/-- C6 (amended): in the multi-source getKeywordIntelligence, a source name appears in
sources_queried exactly when that source was requested and its adapter completed without
error; a failed adapter is only logged — the result record has no partialErrors field and
carries no trace of the failure — and the function returns normally no matter how many
adapters fail. -/
theorem sources_queried_iff_adapter_ok (sources : List String)
    (g : Except String (GoogleData04 × ℚ)) (b : Except String (BingData04 × ℚ))
    (y : Except String (YouTubeData04 × ℚ)) :
    ("google" ∈ (getKeywordIntelligence04 sources g b y).sources_queried ↔
      ("google" ∈ sources ∨ "all" ∈ sources) ∧ g.isOk = true) ∧
    ("bing" ∈ (getKeywordIntelligence04 sources g b y).sources_queried ↔
      ("bing" ∈ sources ∨ "all" ∈ sources) ∧ b.isOk = true) ∧
    ("youtube" ∈ (getKeywordIntelligence04 sources g b y).sources_queried ↔
      ("youtube" ∈ sources ∨ "all" ∈ sources) ∧ y.isOk = true) := by
  simp only [getKeywordIntelligence04]
  split_ifs with h1 h2 h3 <;>
    rcases g with ge | gv <;> rcases b with be | bv <;> rcases y with ye | yv <;>
      simp_all [Except.isOk, Except.toBool]

/-- C6 witness: a requested, successful bing adapter appears in sources_queried. -/
theorem sources_queried_iff_adapter_ok_witness :
    "bing" ∈ (getKeywordIntelligence04 ["bing"] (.error "skip")
      (.ok (bingDataDemo, 1/20)) (.error "skip")).sources_queried :=
  (sources_queried_iff_adapter_ok ["bing"] (.error "skip") (.ok (bingDataDemo, 1/20))
    (.error "skip")).2.1.mpr ⟨Or.inl (by decide), rfl⟩

/-- C6 counterexample: a request for google and bing in which the Google adapter fails
produces a result identical to one where google was never requested — the failure is
silently omitted (there is no partialErrors entry anywhere in the result), and only bing
is listed in sources_queried. -/
theorem failed_source_silently_omitted :
    getKeywordIntelligence04 ["google", "bing"] (.error "Google data unavailable")
        (.ok (bingDataDemo, 1/20)) (.error "x") =
      getKeywordIntelligence04 ["bing"] (.error "never invoked")
        (.ok (bingDataDemo, 1/20)) (.error "x") ∧
    (getKeywordIntelligence04 ["google", "bing"] (.error "Google data unavailable")
        (.ok (bingDataDemo, 1/20)) (.error "x")).sources_queried = ["bing"] := by
  exact ⟨rfl, rfl⟩

end Trendible
